import Mathlib

/-!
Verification of the Monte Carlo Black-Scholes-Merton option-pricing pipeline
from the notebook src/finance/python-black-scholes-merton.ipynb.

Floating-point arithmetic is modelled by exact real arithmetic (ℝ), with
NumPy arrays modelled as `List ℝ` and NumPy broadcasting as `List.map`.
The notebook's computational kernels (`bsm` scalar and vectorized,
`optionValuesAtExpiry`, `averageForwardOptionValue`, `presentOptionValue`)
are translated directly from the source cells.  The spec's three external
operations (`sampleTerminalPrices`, `evaluateCallPayoffs`,
`estimatePresentValue`) add input validation that is absent from the
notebook; those wrappers are modelled from the spec around the source
kernels, as marked in their doc comments.
-/

/-- Scalar Black-Scholes-Merton terminal price, translated from notebook cell 2:
`s_0 * math.exp((r - 0.5 * sigma**2) * t + sigma * math.sqrt(t) * z)`. -/
noncomputable def bsm (s_0 r sigma t z : ℝ) : ℝ :=
  s_0 * Real.exp ((r - 0.5 * sigma ^ 2) * t + sigma * Real.sqrt t * z)

/-- Vectorized Black-Scholes-Merton terminal prices, translated from notebook
cell 4, which redefines `bsm` using `np.exp`/`np.sqrt` so that a whole array
of draws `z` is mapped elementwise in one pass. -/
noncomputable def bsm_vectorized (s_0 r sigma t : ℝ) (z : List ℝ) : List ℝ :=
  z.map fun zi => s_0 * Real.exp ((r - 0.5 * sigma ^ 2) * t + sigma * Real.sqrt t * zi)

/-- Call payoffs at expiry, translated from notebook cell 12:
`np.maximum(stockPricesAtExpiry - strikePrice, 0)`. -/
noncomputable def optionValuesAtExpiry (stockPricesAtExpiry : List ℝ) (strikePrice : ℝ) : List ℝ :=
  stockPricesAtExpiry.map fun s => max (s - strikePrice) 0

/-- Average forward option value, translated from notebook cell 12:
`sum(optionValuesAtExpiry)/n` where `n` is the number of samples. -/
noncomputable def averageForwardOptionValue (optionValues : List ℝ) : ℝ :=
  optionValues.sum / optionValues.length

/-- Present option value, translated from notebook cell 12:
`averageForwardOptionValue * math.exp(-r * t)`. -/
noncomputable def presentOptionValue (optionValues : List ℝ) (r t : ℝ) : ℝ :=
  averageForwardOptionValue optionValues * Real.exp (-r * t)

/-- Error taxonomy of the spec (section 7): `InvalidParameter` for
non-positive spot/strike/time-to-expiry or negative volatility, and
`EmptyInput` for a zero-length payoff sequence. -/
inductive PricingError where
  | invalidParameter : PricingError
  | emptyInput : PricingError
deriving DecidableEq

/-- Market parameters of the GBM model (spec section 3). -/
structure MarketParameters where
  S0 : ℝ
  r : ℝ
  sigma : ℝ
  T : ℝ

/-- Modelled from the spec: the operation `sampleTerminalPrices` of spec
section 6 is absent from the notebook; it is the vectorized `bsm` kernel of
cell 4 behind the validation of spec section 4.1, which rejects `S0 ≤ 0`,
`T ≤ 0` or `sigma < 0` with `InvalidParameter` before any sampling. -/
noncomputable def sampleTerminalPrices (params : MarketParameters) (randomDraws : List ℝ) :
    Except PricingError (List ℝ) :=
  if params.S0 ≤ 0 ∨ params.T ≤ 0 ∨ params.sigma < 0 then
    Except.error PricingError.invalidParameter
  else
    Except.ok (bsm_vectorized params.S0 params.r params.sigma params.T randomDraws)

/-- Modelled from the spec: the operation `evaluateCallPayoffs` of spec
section 6 is absent from the notebook; it is the `optionValuesAtExpiry`
kernel of cell 12 behind the validation of spec section 4.2, which rejects a
non-positive strike with `InvalidParameter`. -/
noncomputable def evaluateCallPayoffs (terminalPrices : List ℝ) (strike : ℝ) :
    Except PricingError (List ℝ) :=
  if strike ≤ 0 then
    Except.error PricingError.invalidParameter
  else
    Except.ok (optionValuesAtExpiry terminalPrices strike)

/-- Modelled from the spec: the operation `estimatePresentValue` of spec
section 6 is absent from the notebook; it is the discounting kernel
`presentOptionValue` of cell 12 behind the validation of spec section 4.3,
which rejects an empty payoff sequence with `EmptyInput` before computing a
mean. -/
noncomputable def estimatePresentValue (payoffs : List ℝ) (r t : ℝ) :
    Except PricingError ℝ :=
  if payoffs = [] then
    Except.error PricingError.emptyInput
  else
    Except.ok (presentOptionValue payoffs r t)

/-- Composition of payoff evaluation and present-value estimation
(spec section 2 pipeline, cell 12 of the notebook). -/
noncomputable def pricePipeline (prices : List ℝ) (K r t : ℝ) : Except PricingError ℝ :=
  (evaluateCallPayoffs prices K).bind fun payoffs => estimatePresentValue payoffs r t

/-- C8: the scalar pricing function of cell 2 and the vectorized pricing
function of cell 4 compute the same value: on a single draw the vectorized
definition gives exactly the scalar result, and on a batch it gives, element
by element, the scalar results. -/
theorem bsm_scalar_vectorized_agree (s_0 r sigma t : ℝ)
    (hS : 0 < s_0) (hsig : 0 ≤ sigma) (hT : 0 < t) (z : ℝ) (zs : List ℝ) :
    bsm_vectorized s_0 r sigma t [z] = [bsm s_0 r sigma t z] ∧
    bsm_vectorized s_0 r sigma t zs = zs.map (bsm s_0 r sigma t) := by
  unfold bsm_vectorized bsm
  exact ⟨rfl, rfl⟩

/-- Witness for C8 at the notebook's own parameters. -/
theorem bsm_scalar_vectorized_agree_witness :
    bsm_vectorized 100 0.03 0.4 0.25 [0] = [bsm 100 0.03 0.4 0.25 0] ∧
    bsm_vectorized 100 0.03 0.4 0.25 [1, 2] = [1, 2].map (bsm 100 0.03 0.4 0.25) :=
  bsm_scalar_vectorized_agree 100 0.03 0.4 0.25 (by norm_num) (by norm_num) (by norm_num) 0 [1, 2]

/-- C10: applied to an empty draw sequence the vectorized sampler succeeds
and returns the empty sequence, for every choice of parameters with T > 0. -/
theorem bsm_vectorized_empty (s_0 r sigma t : ℝ) (hT : 0 < t) :
    bsm_vectorized s_0 r sigma t [] = [] := rfl

/-- Witness for C10. -/
theorem bsm_vectorized_empty_witness :
    bsm_vectorized 100 0.03 0.4 0.25 [] = [] :=
  bsm_vectorized_empty 100 0.03 0.4 0.25 (by norm_num)

/-- C1: for valid market parameters (S0 > 0, T > 0, sigma ≥ 0) and any draw
sequence z, `sampleTerminalPrices` returns a sequence of the same length
whose i-th element is S0 * exp((r - 0.5*sigma^2)*T + sigma*sqrt(T)*z_i). -/
theorem sampleTerminalPrices_formula (p : MarketParameters)
    (hS : 0 < p.S0) (hT : 0 < p.T) (hsig : 0 ≤ p.sigma) (z : List ℝ) :
    ∃ S, sampleTerminalPrices p z = Except.ok S ∧ S.length = z.length ∧
      ∀ i, S.get? i = (z.get? i).map fun zi =>
        p.S0 * Real.exp ((p.r - 0.5 * p.sigma ^ 2) * p.T + p.sigma * Real.sqrt p.T * zi) := by
  refine ⟨bsm_vectorized p.S0 p.r p.sigma p.T z, ?_, ?_, ?_⟩
  · unfold sampleTerminalPrices
    rw [if_neg]
    push_neg
    exact ⟨hS, hT, hsig⟩
  · simp [bsm_vectorized]
  · intro i
    simp [bsm_vectorized]

/-- Witness for C1 at the notebook's parameters with a single zero draw. -/
theorem sampleTerminalPrices_formula_witness :
    ∃ S, sampleTerminalPrices ⟨100, 0.03, 0.4, 0.25⟩ [0] = Except.ok S ∧
      S.length = [(0 : ℝ)].length ∧
      ∀ i, S.get? i = ([(0 : ℝ)].get? i).map fun zi =>
        (100 : ℝ) * Real.exp (((0.03 : ℝ) - 0.5 * (0.4 : ℝ) ^ 2) * 0.25 +
          (0.4 : ℝ) * Real.sqrt 0.25 * zi) :=
  sampleTerminalPrices_formula ⟨100, 0.03, 0.4, 0.25⟩
    (by norm_num) (by norm_num) (by norm_num) [0]

/-- C2: on any non-empty payoff sequence, `estimatePresentValue` returns
exp(-r*T) times the arithmetic mean of the payoffs. -/
theorem estimatePresentValue_formula (payoffs : List ℝ) (r t : ℝ) (h : payoffs ≠ []) :
    estimatePresentValue payoffs r t =
      Except.ok (Real.exp (-(r * t)) * (payoffs.sum / payoffs.length)) := by
  unfold estimatePresentValue presentOptionValue averageForwardOptionValue
  rw [if_neg h, neg_mul]
  rw [mul_comm]

/-- Witness for C2 on a one-element payoff sequence. -/
theorem estimatePresentValue_formula_witness :
    estimatePresentValue [5] 0.03 0.25 =
      Except.ok (Real.exp (-((0.03 : ℝ) * 0.25)) *
        (([5] : List ℝ).sum / (([5] : List ℝ).length : ℝ))) :=
  estimatePresentValue_formula [5] 0.03 0.25 (by simp)

/-- C4: whenever S0 ≤ 0, T ≤ 0 or sigma < 0, `sampleTerminalPrices` fails
with `InvalidParameter`; the result is the same error for every draw
sequence, so the rejection is independent of (and prior to) any sampling. -/
theorem sampleTerminalPrices_invalid (p : MarketParameters)
    (h : p.S0 ≤ 0 ∨ p.T ≤ 0 ∨ p.sigma < 0) (z : List ℝ) :
    sampleTerminalPrices p z = Except.error PricingError.invalidParameter := by
  unfold sampleTerminalPrices
  rw [if_pos h]

/-- Witness for C4 at a non-positive spot. -/
theorem sampleTerminalPrices_invalid_witness :
    sampleTerminalPrices ⟨-1, 0.03, 0.4, 0.25⟩ [0] =
      Except.error PricingError.invalidParameter :=
  sampleTerminalPrices_invalid ⟨-1, 0.03, 0.4, 0.25⟩ (Or.inl (by norm_num)) [0]

/-- C5: `estimatePresentValue` fails with `EmptyInput` exactly when the
payoff sequence is empty, and succeeds on every non-empty sequence. -/
theorem estimatePresentValue_emptyInput_iff (payoffs : List ℝ) (r t : ℝ) :
    (estimatePresentValue payoffs r t = Except.error PricingError.emptyInput ↔
      payoffs = []) ∧
    (payoffs ≠ [] →
      estimatePresentValue payoffs r t = Except.ok (presentOptionValue payoffs r t)) := by
  unfold estimatePresentValue
  by_cases h : payoffs = []
  · simp [h]
  · simp [h]

/-- Witness for C5: the empty sequence fails with `EmptyInput`, the
one-element sequence succeeds. -/
theorem estimatePresentValue_emptyInput_iff_witness :
    estimatePresentValue ([] : List ℝ) 0.03 0.25 =
      Except.error PricingError.emptyInput ∧
    estimatePresentValue [5] 0.03 0.25 =
      Except.ok (presentOptionValue [5] 0.03 0.25) :=
  ⟨(estimatePresentValue_emptyInput_iff [] 0.03 0.25).1.mpr rfl,
   (estimatePresentValue_emptyInput_iff [5] 0.03 0.25).2 (by simp)⟩

/-- C3: for a positive strike K, `evaluateCallPayoffs` returns a sequence of
the same length whose i-th element is max(S_i - K, 0); every output element
is non-negative, equals S_i - K wherever S_i > K, and equals 0 otherwise. -/
theorem evaluateCallPayoffs_formula (S : List ℝ) (K : ℝ) (hK : 0 < K) :
    ∃ P, evaluateCallPayoffs S K = Except.ok P ∧ P.length = S.length ∧
      (∀ i, P.get? i = (S.get? i).map fun s => max (s - K) 0) ∧
      (∀ x ∈ P, 0 ≤ x) ∧
      (∀ i s, S.get? i = some s → K < s → P.get? i = some (s - K)) ∧
      (∀ i s, S.get? i = some s → s ≤ K → P.get? i = some 0) := by
  refine ⟨optionValuesAtExpiry S K, ?_, ?_, ?_, ?_, ?_, ?_⟩
  · unfold evaluateCallPayoffs
    rw [if_neg (not_le.mpr hK)]
  · simp [optionValuesAtExpiry]
  · intro i
    simp [optionValuesAtExpiry]
  · intro x hx
    simp only [optionValuesAtExpiry, List.mem_map] at hx
    obtain ⟨s, _, rfl⟩ := hx
    exact le_max_right _ _
  · intro i s hs hKs
    simp only [optionValuesAtExpiry, List.get?_map, hs, Option.map_some']
    rw [max_eq_left (by linarith)]
  · intro i s hs hsK
    simp only [optionValuesAtExpiry, List.get?_map, hs, Option.map_some']
    rw [max_eq_right (by linarith)]

/-- Witness for C3 on the spec's concrete scenario 3: strike 105, terminal
prices 100 and 110. -/
theorem evaluateCallPayoffs_formula_witness :
    ∃ P, evaluateCallPayoffs [100, 110] 105 = Except.ok P ∧
      P.length = ([100, 110] : List ℝ).length ∧
      (∀ i, P.get? i = (([100, 110] : List ℝ).get? i).map fun s => max (s - 105) 0) ∧
      (∀ x ∈ P, 0 ≤ x) ∧
      (∀ i s, ([100, 110] : List ℝ).get? i = some s → 105 < s → P.get? i = some (s - 105)) ∧
      (∀ i s, ([100, 110] : List ℝ).get? i = some s → s ≤ 105 → P.get? i = some 0) :=
  evaluateCallPayoffs_formula [100, 110] 105 (by norm_num)

/-- C6: `evaluateCallPayoffs` fails exactly when the strike is non-positive,
in which case the error is `InvalidParameter`; for every positive strike and
every terminal-price sequence it succeeds. -/
theorem evaluateCallPayoffs_error_iff (S : List ℝ) (K : ℝ) :
    ((∃ e, evaluateCallPayoffs S K = Except.error e) ↔ K ≤ 0) ∧
    (K ≤ 0 → evaluateCallPayoffs S K = Except.error PricingError.invalidParameter) ∧
    (0 < K → evaluateCallPayoffs S K = Except.ok (optionValuesAtExpiry S K)) := by
  unfold evaluateCallPayoffs
  by_cases h : K ≤ 0
  · simp [h]
  · push_neg at h
    simp [not_le.mpr h, h]

/-- Witness for C6: strike -1 fails with `InvalidParameter`, strike 105
succeeds. -/
theorem evaluateCallPayoffs_error_iff_witness :
    evaluateCallPayoffs [100, 110] (-1) = Except.error PricingError.invalidParameter ∧
    evaluateCallPayoffs [100, 110] 105 =
      Except.ok (optionValuesAtExpiry [100, 110] 105) :=
  ⟨(evaluateCallPayoffs_error_iff [100, 110] (-1)).2.1 (by norm_num),
   (evaluateCallPayoffs_error_iff [100, 110] 105).2.2 (by norm_num)⟩

/-- C7: with sigma = 0 (and S0 > 0, T > 0), `sampleTerminalPrices` succeeds
and every output element equals S0 * exp(r*T) regardless of the draws; two
calls with equal-length draw sequences yield identical outputs. -/
theorem sampleTerminalPrices_sigma_zero (S0 r T : ℝ) (hS : 0 < S0) (hT : 0 < T) :
    (∀ z : List ℝ, sampleTerminalPrices ⟨S0, r, 0, T⟩ z =
      Except.ok (z.map fun _ => S0 * Real.exp (r * T))) ∧
    (∀ z1 z2 : List ℝ, z1.length = z2.length →
      sampleTerminalPrices ⟨S0, r, 0, T⟩ z1 = sampleTerminalPrices ⟨S0, r, 0, T⟩ z2) := by
  have key : ∀ z : List ℝ, sampleTerminalPrices ⟨S0, r, 0, T⟩ z =
      Except.ok (z.map fun _ => S0 * Real.exp (r * T)) := by
    intro z
    unfold sampleTerminalPrices
    rw [if_neg (by push_neg; exact ⟨hS, hT, le_refl 0⟩)]
    simp only [bsm_vectorized]
    norm_num
  refine ⟨key, ?_⟩
  intro z1 z2 hlen
  rw [key z1, key z2]
  simp only [List.map_const']
  rw [hlen]

/-- Witness for C7 on the spec's concrete scenario 2 parameters, with two
different draw sequences of equal length. -/
theorem sampleTerminalPrices_sigma_zero_witness :
    (∀ z : List ℝ, sampleTerminalPrices ⟨100, 0.03, 0, 0.25⟩ z =
      Except.ok (z.map fun _ => (100 : ℝ) * Real.exp ((0.03 : ℝ) * 0.25))) ∧
    (∀ z1 z2 : List ℝ, z1.length = z2.length →
      sampleTerminalPrices ⟨100, 0.03, 0, 0.25⟩ z1 =
        sampleTerminalPrices ⟨100, 0.03, 0, 0.25⟩ z2) :=
  sampleTerminalPrices_sigma_zero 100 0.03 0.25 (by norm_num) (by norm_num)

/-- C9: with the terminal-price batch, r and T fixed, the present-value
estimate obtained by composing `evaluateCallPayoffs` with
`estimatePresentValue` is antitone in the strike: for 0 < K1 ≤ K2 both
pipelines succeed and the estimate at K2 is at most the estimate at K1. -/
theorem pricePipeline_strike_antitone (prices : List ℝ) (r t K1 K2 : ℝ)
    (hK1 : 0 < K1) (hK : K1 ≤ K2) (hne : prices ≠ []) :
    ∃ v1 v2, pricePipeline prices K1 r t = Except.ok v1 ∧
      pricePipeline prices K2 r t = Except.ok v2 ∧ v2 ≤ v1 := by
  have hK2 : 0 < K2 := lt_of_lt_of_le hK1 hK
  have hne1 : optionValuesAtExpiry prices K1 ≠ [] := by
    simp [optionValuesAtExpiry, hne]
  have hne2 : optionValuesAtExpiry prices K2 ≠ [] := by
    simp [optionValuesAtExpiry, hne]
  refine ⟨presentOptionValue (optionValuesAtExpiry prices K1) r t,
    presentOptionValue (optionValuesAtExpiry prices K2) r t, ?_, ?_, ?_⟩
  · unfold pricePipeline evaluateCallPayoffs estimatePresentValue
    rw [if_neg (not_le.mpr hK1)]
    simp only [Except.bind]
    rw [if_neg hne1]
  · unfold pricePipeline evaluateCallPayoffs estimatePresentValue
    rw [if_neg (not_le.mpr hK2)]
    simp only [Except.bind]
    rw [if_neg hne2]
  · unfold presentOptionValue averageForwardOptionValue
    have hlen1 : (optionValuesAtExpiry prices K1).length = prices.length := by
      simp [optionValuesAtExpiry]
    have hlen2 : (optionValuesAtExpiry prices K2).length = prices.length := by
      simp [optionValuesAtExpiry]
    have hsum : (optionValuesAtExpiry prices K2).sum ≤ (optionValuesAtExpiry prices K1).sum := by
      unfold optionValuesAtExpiry
      refine List.sum_le_sum ?_
      intro s _
      exact max_le_max (by linarith) (le_refl 0)
    rw [hlen1, hlen2]
    have hexp : (0 : ℝ) ≤ Real.exp (-r * t) := le_of_lt (Real.exp_pos _)
    have hn : (0 : ℝ) ≤ (prices.length : ℝ) := Nat.cast_nonneg _
    have hdiv : (optionValuesAtExpiry prices K2).sum / (prices.length : ℝ) ≤
        (optionValuesAtExpiry prices K1).sum / (prices.length : ℝ) :=
      div_le_div_of_nonneg_right hsum hn
    exact mul_le_mul_of_nonneg_right hdiv hexp

/-- Witness for C9 with terminal prices 100 and 110 and strikes 100 ≤ 105. -/
theorem pricePipeline_strike_antitone_witness :
    ∃ v1 v2, pricePipeline [100, 110] 100 0.03 0.25 = Except.ok v1 ∧
      pricePipeline [100, 110] 105 0.03 0.25 = Except.ok v2 ∧ v2 ≤ v1 :=
  pricePipeline_strike_antitone [100, 110] 0.03 0.25 100 105
    (by norm_num) (by norm_num) (by simp)
